import Mathlib

/-!
Shallow embedding of the brainwashlabs backend (FastAPI + flat JSON files)
and verification of its specification claims.

Source files modelled here:
- src/routes/auth.py      : hash_password, signup, login over an in-memory dict
- src/routes/webhooks.py  : safe_load_json, safe_write_json, append_log,
                            append_finance, stripe_webhook, coinbase_webhook
- src/utils/ad_brain_loop.py : run_forecast
- src/routes/finance.py   : create_stripe_checkout (try/except control flow)
- src/main.py             : debug_env environment-key filter

Conventions: Python floats are modelled as exact rationals (the claims under
verification are stated in exact arithmetic); machine-word arithmetic inside
SHA-256 is Nat with explicit reduction mod 2^32; Python exceptions are
modelled with Except; nondeterministic inputs (timestamps, random confidence,
network results) are explicit parameters; file-system effects are explicit
state passing over a file-content datatype with a Boolean write-fault oracle.
-/

namespace BW

/-! ### SHA-256 (hashlib.sha256(...).hexdigest() as used by auth.hash_password)

A complete executable SHA-256 over `Nat`, with 32-bit words represented as
naturals reduced mod `M32 = 2^32`.
-/

/-- The modulus 2^32 for 32-bit word arithmetic. -/
def M32 : Nat := 4294967296

/-- Rotate a 32-bit word right by `n` bits. -/
def rotr (n x : Nat) : Nat := ((x >>> n) ||| (x <<< (32 - n))) % M32

def bigS0 (x : Nat) : Nat := (rotr 2 x) ^^^ (rotr 13 x) ^^^ (rotr 22 x)

def bigS1 (x : Nat) : Nat := (rotr 6 x) ^^^ (rotr 11 x) ^^^ (rotr 25 x)

def smallS0 (x : Nat) : Nat := (rotr 7 x) ^^^ (rotr 18 x) ^^^ (x >>> 3)

def smallS1 (x : Nat) : Nat := (rotr 17 x) ^^^ (rotr 19 x) ^^^ (x >>> 10)

def chF (x y z : Nat) : Nat := (x &&& y) ^^^ ((x ^^^ (M32 - 1)) &&& z)

def majF (x y z : Nat) : Nat := (x &&& y) ^^^ (x &&& z) ^^^ (y &&& z)

/-- The eight 32-bit state words of the SHA-256 compression function. -/
structure H8 where
  a : Nat
  b : Nat
  c : Nat
  d : Nat
  e : Nat
  f : Nat
  g : Nat
  h : Nat
  deriving DecidableEq

/-- SHA-256 initial hash values (decimal rendering of the FIPS 180-4 words). -/
def initH : H8 :=
  ⟨1779033703, 3144134277, 1013904242, 2773480762,
   1359893119, 2600822924, 528734635, 1541459225⟩

/-- SHA-256 round constants (decimal rendering of the FIPS 180-4 words). -/
def K : List Nat :=
  [1116352408, 1899447441, 3049323471, 3921009573, 961987163,
   1508970993, 2453635748, 2870763221, 3624381080, 310598401,
   607225278, 1426881987, 1925078388, 2162078206, 2614888103,
   3248222580, 3835390401, 4022224774, 264347078, 604807628,
   770255983, 1249150122, 1555081692, 1996064986, 2554220882,
   2821834349, 2952996808, 3210313671, 3336571891, 3584528711,
   113926993, 338241895, 666307205, 773529912, 1294757372,
   1396182291, 1695183700, 1986661051, 2177026350, 2456956037,
   2730485921, 2820302411, 3259730800, 3345764771, 3516065817,
   3600352804, 4094571909, 275423344, 430227734, 506948616,
   659060556, 883997877, 958139571, 1322822218, 1537002063,
   1747873779, 1955562222, 2024104815, 2227730452, 2361852424,
   2428436474, 2756734187, 3204031479, 3329325298]

/-- One SHA-256 round: consume one (round constant, schedule word) pair. -/
def shaStep (st : H8) (kw : Nat × Nat) : H8 :=
  let t1 := (st.h + bigS1 st.e + chF st.e st.f st.g + kw.1 + kw.2) % M32
  let t2 := (bigS0 st.a + majF st.a st.b st.c) % M32
  ⟨(t1 + t2) % M32, st.a, st.b, st.c, (st.d + t1) % M32, st.e, st.f, st.g⟩

/-- Extend the message schedule by one word. -/
def schedStep (w : List Nat) : List Nat :=
  let i := w.length
  w ++ [(smallS1 (w.getD (i - 2) 0) + w.getD (i - 7) 0 +
         smallS0 (w.getD (i - 15) 0) + w.getD (i - 16) 0) % M32]

/-- Extend a 16-word block to the full 64-word message schedule. -/
def schedule (w16 : List Nat) : List Nat :=
  (List.range 48).foldl (fun acc _ => schedStep acc) w16

/-- Compress one 512-bit (16-word) block into the running state. -/
def compress (st : H8) (block : List Nat) : H8 :=
  let res := (K.zip (schedule block)).foldl shaStep st
  ⟨(st.a + res.a) % M32, (st.b + res.b) % M32, (st.c + res.c) % M32, (st.d + res.d) % M32,
   (st.e + res.e) % M32, (st.f + res.f) % M32, (st.g + res.g) % M32, (st.h + res.h) % M32⟩

/-- Group a byte list into big-endian 32-bit words. -/
def toWords : List Nat → List Nat
  | b0 :: b1 :: b2 :: b3 :: rest => (((b0 * 256 + b1) * 256 + b2) * 256 + b3) :: toWords rest
  | _ => []

/-- Split a word list into 16-word blocks (fuelled structural recursion so
that it reduces in the kernel; the fuel `ws.length` always suffices). -/
def toBlocksF : Nat → List Nat → List (List Nat)
  | _, [] => []
  | 0, _ => []
  | fuel + 1, ws => ws.take 16 :: toBlocksF fuel (ws.drop 16)

def toBlocks (ws : List Nat) : List (List Nat) := toBlocksF ws.length ws

/-- Big-endian byte expansion of `n` to the given number of bytes. -/
def beBytes (n : Nat) : Nat → List Nat
  | 0 => []
  | k + 1 => ((n >>> (8 * k)) % 256) :: beBytes n k

/-- SHA-256 padding: append 0x80, zero padding to 56 mod 64 bytes, and the
64-bit big-endian bit length. -/
def padBytes (msg : List Nat) : List Nat :=
  msg ++ [0x80] ++ List.replicate ((119 - msg.length % 64) % 64) 0 ++ beBytes (8 * msg.length) 8

/-- Final SHA-256 state for a byte message. -/
def shaWords (msg : List Nat) : H8 :=
  (toBlocks (toWords (padBytes msg))).foldl compress initH

/-- Lowercase hexadecimal digit. -/
def hexChar (n : Nat) : Char := if n < 10 then Char.ofNat (48 + n) else Char.ofNat (87 + n)

/-- Eight lowercase hex characters of a 32-bit word. -/
def wordHex (w : Nat) : List Char :=
  [hexChar ((w >>> 28) % 16), hexChar ((w >>> 24) % 16), hexChar ((w >>> 20) % 16),
   hexChar ((w >>> 16) % 16), hexChar ((w >>> 12) % 16), hexChar ((w >>> 8) % 16),
   hexChar ((w >>> 4) % 16), hexChar (w % 16)]

/-- The hexdigest string of a byte message. -/
def sha256hex (msg : List Nat) : String :=
  let res := shaWords msg
  ⟨wordHex res.a ++ wordHex res.b ++ wordHex res.c ++ wordHex res.d ++
   wordHex res.e ++ wordHex res.f ++ wordHex res.g ++ wordHex res.h⟩

/-- UTF-8 encoding of a single code point (Python str.encode()). -/
def utf8Bytes (c : Nat) : List Nat :=
  if c < 0x80 then [c]
  else if c < 0x800 then [0xc0 ||| (c >>> 6), 0x80 ||| (c &&& 0x3f)]
  else if c < 0x10000 then
    [0xe0 ||| (c >>> 12), 0x80 ||| ((c >>> 6) &&& 0x3f), 0x80 ||| (c &&& 0x3f)]
  else
    [0xf0 ||| (c >>> 18), 0x80 ||| ((c >>> 12) &&& 0x3f),
     0x80 ||| ((c >>> 6) &&& 0x3f), 0x80 ||| (c &&& 0x3f)]

/-- UTF-8 bytes of a string. -/
def strBytes (s : String) : List Nat := (s.data.map (fun c => utf8Bytes c.toNat)).flatten

/-- auth.hash_password: SHA-256 hexdigest of the UTF-8 encoded password
(src/routes/auth.py lines 32-34). -/
def hash_password (p : String) : String := sha256hex (strBytes p)

/-! ### Python dict and auth route (src/routes/auth.py)

The in-memory user store `fake_users: Dict[str, str]` is modelled as an
association list in insertion order, with Python dict semantics: lookup by
key, key-membership, and assignment that overwrites in place or appends.
-/

/-- The `fake_users` store: email to stored password hash, insertion order. -/
abbrev PyDict := List (String × String)

/-- Python `d.get(k)`: the value at the first matching key, if any. -/
def dictGet (d : PyDict) (k : String) : Option String :=
  (d.find? (fun p => p.1 == k)).map (fun p => p.2)

/-- Python `k in d`. -/
def dictContains (d : PyDict) (k : String) : Bool :=
  (d.find? (fun p => p.1 == k)).isSome

/-- Python `d[k] = v`: overwrite in place when the key exists, else append. -/
def dictSet (d : PyDict) (k v : String) : PyDict :=
  if dictContains d k then d.map (fun p => if p.1 == k then (k, v) else p)
  else d ++ [(k, v)]

/-- Python truthiness test `not x` on an optional string: true for `None`
and for the empty string. -/
def pyFalsy : Option String → Bool
  | none => true
  | some s => s == ""

/-- FastAPI HTTPException payload: status code and detail. -/
structure HTTPError where
  status : Nat
  detail : String
  deriving DecidableEq

/-- Success body of the auth endpoints. -/
structure AuthResp where
  ok : Bool
  msg : String
  deriving DecidableEq

/-- auth.signup (src/routes/auth.py lines 39-48): reject an existing email
with 400, otherwise store the password hash. Returns the response together
with the new store. -/
def signup (users : PyDict) (email pw : String) : Except HTTPError AuthResp × PyDict :=
  if dictContains users email then
    (Except.error ⟨400, "User already exists."⟩, users)
  else
    (Except.ok ⟨true, "User created successfully."⟩, dictSet users email (hash_password pw))

/-- auth.login (src/routes/auth.py lines 53-67): `stored_pw = fake_users.get(email)`,
404 when `not stored_pw` (Python truthiness: missing key or empty string),
401 when the stored string differs from the hash of the supplied password,
otherwise success. The store is returned unchanged. -/
def login (users : PyDict) (email pw : String) : Except HTTPError AuthResp × PyDict :=
  let stored_pw := dictGet users email
  if pyFalsy stored_pw then
    (Except.error ⟨404, "User not found."⟩, users)
  else if stored_pw.getD "" ≠ hash_password pw then
    (Except.error ⟨401, "Invalid credentials."⟩, users)
  else
    (Except.ok ⟨true, "Login successful."⟩, users)

/-! ### JSON file layer (src/routes/webhooks.py lines 35-52)

A log file on disk is either missing, unreadable as JSON, or a stored list
of entries. The raw operations `json_load` and `json_dump` are fallible
(Except); the `safe_` wrappers mirror the try/except blocks of the source,
which swallow every exception. A Boolean `fault` oracle decides whether the
underlying write raises.
-/

/-- Contents of one JSON log file. -/
inductive FileContent (α : Type) where
  | missing
  | corrupt
  | stored (l : List α)
  deriving DecidableEq

/-- Raw `json.load` on an opened file: raises on unparsable contents. -/
def json_load {α : Type} : FileContent α → Except String (List α)
  | .missing => Except.error "FileNotFoundError"
  | .corrupt => Except.error "JSONDecodeError"
  | .stored l => Except.ok l

/-- webhooks.safe_load_json: `[]` when the path does not exist, otherwise
`json.load` with every exception caught and `[]` returned. -/
def safe_load_json {α : Type} (c : FileContent α) : List α :=
  match c with
  | .missing => []
  | c =>
    match json_load c with
    | .ok l => l
    | .error _ => []

/-- Python slice `data[-100:]`. -/
def takeLast {α : Type} (n : Nat) (l : List α) : List α := l.drop (l.length - n)

/-- Fault oracle for the two failure points of webhooks.safe_write_json:
`path.parent.mkdir(parents=True, exist_ok=True)` on line 47, which runs
BEFORE the try/except and whose exception therefore propagates, and the
open/`json.dump` on lines 49-50 inside the try, whose exception is caught. -/
structure WriteFaults where
  mkdirFault : Bool
  dumpFault : Bool
  deriving DecidableEq

/-- The all-clear write oracle: neither stage raises. -/
def noWF : WriteFaults := ⟨false, false⟩

/-- Raw `path.parent.mkdir(parents=True, exist_ok=True)`: raises iff the
fault oracle says so (e.g. PermissionError, or FileExistsError when `data`
exists as a regular file). -/
def mkdir_parents (fault : Bool) : Except String Unit :=
  if fault then Except.error "PermissionError" else Except.ok ()

/-- Raw open + `json.dump`: raises iff the fault oracle says so. -/
def json_dump {α : Type} (fault : Bool) (data : List α) : Except String (List α) :=
  if fault then Except.error "OSError" else Except.ok data

/-- webhooks.safe_write_json: first `path.parent.mkdir` outside the
try/except, so its failure propagates as an exception (`Except.error`);
then `json.dump(data[-100:])` inside the try, whose failure is caught and
logged, leaving the previous contents in place and returning normally. -/
def safe_write_json {α : Type} (f : WriteFaults) (old : FileContent α) (data : List α) :
    Except String (FileContent α) :=
  match mkdir_parents f.mkdirFault with
  | .error e => Except.error e
  | .ok _ =>
    match json_dump f.dumpFault (takeLast 100 data) with
    | .ok d => Except.ok (FileContent.stored d)
    | .error _ => Except.ok old

/-! ### Webhook handlers (src/routes/webhooks.py lines 54-145)

Event payloads are the fields the handlers actually read, each optional
because Python `dict.get` returns `None` for an absent key. Monetary values
are exact rationals. Timestamps (`datetime.utcnow().isoformat()`) are a
`now` parameter.
-/

/-- The `data.object` fields read from a Stripe event. -/
structure StripeData where
  id : Option String
  customer_email : Option String
  amount_total : Option ℚ
  deriving DecidableEq

/-- The `event.data` fields read from a Coinbase Commerce event:
`metadata.email` and `pricing.local.amount`. -/
structure CoinbaseData where
  id : Option String
  metadata_email : Option String
  pricing_local_amount : Option ℚ
  deriving DecidableEq

/-- A webhook_log payload: the data object of either processor. -/
inductive WPayload where
  | stripe (d : StripeData)
  | coinbase (d : CoinbaseData)
  deriving DecidableEq

/-- One webhook_log.json entry (source, timestamp, payload). -/
structure WEntry where
  source : String
  timestamp : String
  payload : WPayload
  deriving DecidableEq

/-- One finance_log.json entry (id, email, amount, source, timestamp).
`append_finance` always stores an amount; `amount` is optional because
`run_forecast` reads it defensively with `x.get("amount", 0)`. -/
structure FEntry where
  id : Option String
  email : Option String
  amount : Option ℚ
  source : String
  timestamp : String
  deriving DecidableEq

/-- The two log files the webhook routes mutate. -/
structure LogFiles where
  webhook : FileContent WEntry
  finance : FileContent FEntry
  deriving DecidableEq

/-- webhooks.append_log (lines 54-62): reload webhook_log, append one entry,
write back through safe_write_json. A mkdir failure inside safe_write_json
propagates out of append_log. -/
def append_log (f : WriteFaults) (wl : FileContent WEntry) (source : String)
    (payload : WPayload) (now : String) : Except String (FileContent WEntry) :=
  let logs := safe_load_json wl
  safe_write_json f wl (logs ++ [⟨source, now, payload⟩])

/-- webhooks.append_finance (lines 64-75): reload finance_log, append one
entry, write back through safe_write_json. No deduplication of any kind is
performed on the transaction id. A mkdir failure inside safe_write_json
propagates out of append_finance. -/
def append_finance (f : WriteFaults) (fl : FileContent FEntry) (source : String)
    (email : Option String) (amount : ℚ) (txid : Option String) (now : String) :
    Except String (FileContent FEntry) :=
  let data := safe_load_json fl
  safe_write_json f fl (data ++ [⟨txid, email, some amount, source, now⟩])

/-- A Stripe event as returned by a successful `stripe.Webhook.construct_event`:
`event.get("type")` and `event.get("data", {}).get("object", {})`. -/
structure StripeEvent where
  type : Option String
  data : StripeData
  deriving DecidableEq

/-- Outcome of `stripe.Webhook.construct_event`: a verified event, a
`SignatureVerificationError`, or any other exception (e.g. a payload parse
failure). -/
inductive StripeConstructResult where
  | ok (e : StripeEvent)
  | sigError
  | otherError (msg : String)
  deriving DecidableEq

/-- Success body of both webhook handlers. -/
structure WebhookResp where
  ok : Bool
  event : Option String
  source : String
  deriving DecidableEq

/-- webhooks.stripe_webhook (lines 80-116): 400 when the webhook secret is
unconfigured; then construct_event, whose SignatureVerificationError maps to
400 and any other exception to 500; on a verified event append to
webhook_log, and additionally to finance_log for checkout.session.completed
with amount `amount_total / 100`. An exception escaping an append (the
mkdir failure) lands in the handler's blanket `except Exception` as a 500,
with whatever was already written staying written. -/
def stripe_webhook (secretConfigured : Bool) (construct : StripeConstructResult)
    (wf ff : WriteFaults) (now : String) (fs : LogFiles) :
    Except HTTPError WebhookResp × LogFiles :=
  if !secretConfigured then
    (Except.error ⟨400, "Stripe webhook secret missing"⟩, fs)
  else
    match construct with
    | .sigError => (Except.error ⟨400, "Invalid Stripe signature"⟩, fs)
    | .otherError msg => (Except.error ⟨500, "Webhook error: " ++ msg⟩, fs)
    | .ok ev =>
      let event_type := ev.type
      let data := ev.data
      match append_log wf fs.webhook "stripe" (.stripe data) now with
      | .error e => (Except.error ⟨500, "Webhook error: " ++ e⟩, fs)
      | .ok wl =>
        if event_type == some "checkout.session.completed" then
          let email := data.customer_email
          let total := data.amount_total.getD 0 / 100
          let txid := data.id
          match append_finance ff fs.finance "stripe" email total txid now with
          | .error e => (Except.error ⟨500, "Webhook error: " ++ e⟩, ⟨wl, fs.finance⟩)
          | .ok fl => (Except.ok ⟨true, event_type, "stripe"⟩, ⟨wl, fl⟩)
        else
          (Except.ok ⟨true, event_type, "stripe"⟩, ⟨wl, fs.finance⟩)

/-- A parsed Coinbase webhook body: `body.get("event", {})` with its
`type` (defaulted to "unknown" at the read site) and `data`. -/
structure CoinbaseBody where
  event_type : Option String
  data : CoinbaseData
  deriving DecidableEq

/-- webhooks.coinbase_webhook (lines 121-145): parse the JSON body (`none`
models a `request.json()` failure, caught by the blanket except as 500),
append to webhook_log unconditionally, and to finance_log for
charge:confirmed with the local pricing amount. There is no signature
verification of any kind. An exception escaping an append (the mkdir
failure) lands in the blanket `except Exception` as a 500. -/
def coinbase_webhook (body : Option CoinbaseBody) (wf ff : WriteFaults)
    (now : String) (fs : LogFiles) : Except HTTPError WebhookResp × LogFiles :=
  match body with
  | none => (Except.error ⟨500, "Webhook error: invalid JSON body"⟩, fs)
  | some b =>
    let event_type := b.event_type.getD "unknown"
    let data := b.data
    match append_log wf fs.webhook "coinbase" (.coinbase data) now with
    | .error e => (Except.error ⟨500, "Webhook error: " ++ e⟩, fs)
    | .ok wl =>
      if event_type == "charge:confirmed" then
        let email := data.metadata_email
        let amount := data.pricing_local_amount.getD 0
        let txid := data.id
        match append_finance ff fs.finance "coinbase" email amount txid now with
        | .error e => (Except.error ⟨500, "Webhook error: " ++ e⟩, ⟨wl, fs.finance⟩)
        | .ok fl => (Except.ok ⟨true, some event_type, "coinbase"⟩, ⟨wl, fl⟩)
      else
        (Except.ok ⟨true, some event_type, "coinbase"⟩, ⟨wl, fs.finance⟩)

/-! ### ROI forecast (src/utils/ad_brain_loop.py lines 29-55)

Python's `round(x, 2)` rounds half to even; it is modelled exactly over the
rationals. `ad_brain_loop.load_json` behaves exactly like
`webhooks.safe_load_json` and is shared here. The `random.randint(82, 98)`
confidence and the timestamp are parameters.
-/

/-- Floor of a rational as an integer (floor division of numerator by
denominator; the denominator of a `Rat` is positive). -/
def ratFloor (x : ℚ) : ℤ := Int.fdiv x.num x.den

/-- Round half to even to the nearest integer, as Python's `round`. -/
def roundHalfEven (x : ℚ) : ℤ :=
  let n := ratFloor x
  let r := x - (n : ℚ)
  if r < 1 / 2 then n
  else if 1 / 2 < r then n + 1
  else if n % 2 = 0 then n else n + 1

/-- Python `round(x, 2)`. -/
def pyRound2 (x : ℚ) : ℚ := (roundHalfEven (x * 100) : ℚ) / 100

/-- The record written to reinvest.json by run_forecast. -/
structure Reinvest where
  timestamp : String
  total_revenue : ℚ
  ads_spent : ℚ
  roi : ℚ
  next_budget : ℚ
  confidence : ℕ
  deriving DecidableEq

/-- ad_brain_loop.run_forecast: sum the amount fields of the finance log
(0 for a missing field), divide by the fixed ads spend of 100.0 and round to
2 places for the ROI, pick the next budget by the ROI thresholds, and write
the record (we return it; `save_json` stores exactly this record). -/
def run_forecast (fin : FileContent FEntry) (now : String) (confidence : ℕ) : Reinvest :=
  let finance := safe_load_json fin
  let total_revenue : ℚ := (finance.map (fun x => x.amount.getD 0)).sum
  let total_ads_spent : ℚ := 100
  let roi : ℚ := if total_ads_spent ≠ 0 then pyRound2 (total_revenue / total_ads_spent) else 0
  let next_budget : ℚ :=
    if roi > 3 / 2 then total_ads_spent * (3 / 2)
    else if roi > 1 then total_ads_spent * (6 / 5)
    else total_ads_spent * (4 / 5)
  ⟨now, total_revenue, total_ads_spent, roi, pyRound2 next_budget, confidence⟩

/-! ### Stripe checkout creation (src/routes/finance.py lines 56-94)

The whole request body handling sits inside one `try` whose except-chain is
`except stripe.error.StripeError` then `except Exception`. FastAPI's
`HTTPException` is a plain `Exception` subclass and not a `StripeError`, so
an HTTPException raised inside the try lands in the blanket handler. The
body parse result and the outcome of `stripe.checkout.Session.create` are
parameters (external world).
-/

/-- An exception raised inside the try block of create_stripe_checkout. -/
inductive PyExc where
  | http (status : Nat) (detail : String)
  | stripeErr (msg : String)
  | other (msg : String)
  deriving DecidableEq

/-- The Python `str(e)` rendering used in the 500 details. -/
def pyStr : PyExc → String
  | .http s d => toString s ++ ": " ++ d
  | .stripeErr m => m
  | .other m => m

/-- The JSON body fields read by create_stripe_checkout. -/
structure CheckoutBody where
  email : Option String
  plan : Option String
  deriving DecidableEq

/-- The price-id table `{"monthly": ..., "yearly": ...}.get(plan)`. -/
def plan_price_id (plan : String) : Option String :=
  if plan == "monthly" then some "price_XXX_monthly"
  else if plan == "yearly" then some "price_XXX_yearly"
  else none

/-- The try-block body of create_stripe_checkout: parse the body, 400 on a
falsy email, 400 on an unknown plan, then create the session. -/
def stripe_checkout_try (body : Except String CheckoutBody)
    (sessionCreate : Except String String) : Except PyExc String :=
  match body with
  | .error m => Except.error (.other m)
  | .ok b =>
    let email := b.email
    let plan := b.plan.getD "monthly"
    if pyFalsy email then Except.error (.http 400 "Email is required")
    else
      match plan_price_id plan with
      | none => Except.error (.http 400 "Invalid plan type")
      | some _ =>
        match sessionCreate with
        | .error m => Except.error (.stripeErr m)
        | .ok url => Except.ok url

/-- finance.create_stripe_checkout: 400 before the try when the Stripe key
is unconfigured; afterwards the except-chain maps a StripeError to 500 and
every other exception (HTTPException included) to 500 "Internal error". -/
def create_stripe_checkout (keyConfigured : Bool) (body : Except String CheckoutBody)
    (sessionCreate : Except String String) : Except HTTPError String :=
  if !keyConfigured then
    Except.error ⟨400, "Stripe key not configured in environment"⟩
  else
    match stripe_checkout_try body sessionCreate with
    | .ok url => Except.ok url
    | .error (.stripeErr m) => Except.error ⟨500, "Stripe error: " ++ m⟩
    | .error e => Except.error ⟨500, "Internal error: " ++ pyStr e⟩

/-! ### Environment diagnostics (src/main.py lines 159-172) -/

/-- Characters of a string lowered, Python `k.lower()`. -/
def lowerChars (s : String) : List Char := s.data.map Char.toLower

/-- Boolean test that `pre` is a prefix of `l`. -/
def isPrefixB : List Char → List Char → Bool
  | [], _ => true
  | _ :: _, [] => false
  | a :: as, b :: bs => a == b && isPrefixB as bs

/-- Boolean substring test, Python `needle in haystack` on strings. -/
def isSubstrB (needle : List Char) : List Char → Bool
  | [] => isPrefixB needle []
  | c :: cs => isPrefixB needle (c :: cs) || isSubstrB needle cs

/-- The markers the debug endpoint filters on. -/
def sensitive_markers : List String := ["key", "secret", "token"]

/-- main.debug_env env_keys: keep the environment names `k` with
`not any(x in k.lower() for x in ["key", "secret", "token"])`. -/
def debug_env_keys (env : List String) : List String :=
  env.filter (fun k => !(sensitive_markers.any (fun x => isSubstrB x.data (lowerChars k))))

/-- The claim's predicate, stated in its own words: the name contains
"key", "secret" or "token" as a case-insensitive substring (both sides
lowered). -/
def sensitiveCI (k : String) : Bool :=
  isSubstrB (lowerChars "key") (lowerChars k) ||
  isSubstrB (lowerChars "secret") (lowerChars k) ||
  isSubstrB (lowerChars "token") (lowerChars k)

/-- The claim's description of env_keys: exactly the non-sensitive names. -/
def debug_env_keys_spec (env : List String) : List String :=
  env.filter (fun k => !sensitiveCI k)

/-- Decidable equality of Except values, to evaluate the embedded fallible
operations at concrete inputs. -/
instance exceptDecEq {ε α : Type} [DecidableEq ε] [DecidableEq α] :
    DecidableEq (Except ε α) := fun x y =>
  match x, y with
  | .error a, .error b =>
    if h : a = b then Decidable.isTrue (by rw [h])
    else Decidable.isFalse (fun hc => h (Except.error.inj hc))
  | .ok a, .ok b =>
    if h : a = b then Decidable.isTrue (by rw [h])
    else Decidable.isFalse (fun hc => h (Except.ok.inj hc))
  | .error _, .ok _ => Decidable.isFalse (fun hc => Except.noConfusion hc)
  | .ok _, .error _ => Decidable.isFalse (fun hc => Except.noConfusion hc)

/-! ### Helper lemmas -/

theorem takeLast_length_le {α : Type} (n : Nat) (l : List α) : (takeLast n l).length ≤ n := by
  simp [takeLast, List.length_drop]
  omega

theorem sha256hex_length (msg : List Nat) : (sha256hex msg).length = 64 := by
  simp [sha256hex, String.length, wordHex]

/-- Validation of the SHA-256 embedding against published test vectors
(the digests of "x" and of the empty string). -/
theorem hash_password_test_vectors :
    hash_password "x" = "2d711642b726b04401627ca9fbac32f5c8530fb1903cc4db02258717921a4881"
    ∧ hash_password "" = "e3b0c44298fc1c149afbf4c8996fb92427ae41e4649b934ca495991b7852b855" := by
  constructor <;> decide

theorem hash_password_ne_empty (p : String) : hash_password p ≠ "" := by
  intro h
  have h64 : (hash_password p).length = 64 := sha256hex_length (strBytes p)
  rw [h] at h64
  simp at h64

theorem append_log_eq (wl : FileContent WEntry) (source : String) (payload : WPayload)
    (now : String) :
    append_log noWF wl source payload now
      = Except.ok (FileContent.stored
          (takeLast 100 (safe_load_json wl ++ [⟨source, now, payload⟩]))) := by
  simp [append_log, safe_write_json, mkdir_parents, json_dump, noWF]

theorem append_finance_eq (fl : FileContent FEntry) (source : String) (email : Option String)
    (amount : ℚ) (txid : Option String) (now : String) :
    append_finance noWF fl source email amount txid now
      = Except.ok (FileContent.stored
          (takeLast 100 (safe_load_json fl ++ [⟨txid, email, some amount, source, now⟩]))) := by
  simp [append_finance, safe_write_json, mkdir_parents, json_dump, noWF]

/-! ### Claim theorems -/

/-- C3: safe_write_json persists at most the last 100 entries of every input
list, so after every (persisting) append_log or append_finance call the
stored webhook_log and finance_log each contain at most 100 entries. -/
theorem log_appends_capped_at_100 (old : FileContent FEntry) (data : List FEntry)
    (wl : FileContent WEntry) (fl : FileContent FEntry) (source now : String)
    (payload : WPayload) (email : Option String) (amount : ℚ) (txid : Option String) :
    safe_write_json noWF old data = Except.ok (FileContent.stored (takeLast 100 data))
    ∧ (takeLast 100 data).length ≤ 100
    ∧ append_log noWF wl source payload now
        = Except.ok (FileContent.stored
            (takeLast 100 (safe_load_json wl ++ [⟨source, now, payload⟩])))
    ∧ (takeLast 100 (safe_load_json wl ++ [⟨source, now, payload⟩])).length ≤ 100
    ∧ append_finance noWF fl source email amount txid now
        = Except.ok (FileContent.stored
            (takeLast 100 (safe_load_json fl ++ [⟨txid, email, some amount, source, now⟩])))
    ∧ (takeLast 100 (safe_load_json fl ++ [⟨txid, email, some amount, source, now⟩])).length
        ≤ 100 :=
  ⟨by simp [safe_write_json, mkdir_parents, json_dump, noWF],
   takeLast_length_le 100 data,
   append_log_eq wl source payload now, takeLast_length_le 100 _,
   append_finance_eq fl source email amount txid now, takeLast_length_le 100 _⟩

/-- C5: signup fails with 400 and an unchanged store exactly when the email
is already a key; otherwise it succeeds and extends the store by exactly the
pair (email, SHA-256 hex digest of the password). -/
theorem signup_behavior (users : PyDict) (email pw : String) :
    (dictContains users email = true →
      signup users email pw = (Except.error ⟨400, "User already exists."⟩, users))
    ∧ (dictContains users email = false →
      signup users email pw =
        (Except.ok ⟨true, "User created successfully."⟩, users ++ [(email, hash_password pw)])) := by
  constructor <;> intro h <;> simp [signup, dictSet, h]

/-- C5 witness: signing up against the empty store appends the single pair. -/
theorem signup_behavior_witness :
    signup [] "a@b.c" "pw" =
      (Except.ok ⟨true, "User created successfully."⟩, [("a@b.c", hash_password "pw")]) :=
  (signup_behavior [] "a@b.c" "pw").2 rfl

/-- C4 counterexample: with the store mapping the email to the empty string,
the email is present and the stored value differs from the SHA-256 digest of
the supplied password (no digest is empty), yet login answers 404 rather
than the claimed 401, because Python `not stored_pw` treats an empty stored
string like a missing user. -/
theorem login_present_email_404_counterexample :
    dictGet [("a@b.c", "")] "a@b.c" = some ""
    ∧ dictGet [("a@b.c", "")] "a@b.c" ≠ some (hash_password "x")
    ∧ (login [("a@b.c", "")] "a@b.c" "x").1 = Except.error ⟨404, "User not found."⟩
    ∧ (⟨404, "User not found."⟩ : HTTPError) ≠ ⟨401, "Invalid credentials."⟩ := by
  refine ⟨rfl, ?_, rfl, by decide⟩
  intro h
  rw [show dictGet [("a@b.c", "")] "a@b.c" = some "" from rfl] at h
  exact hash_password_ne_empty "x" (Option.some.inj h).symm

/-- C4 amended: login succeeds exactly when the stored value is the digest
of the supplied password; it fails with 404 when the email is absent or the
stored value is the empty string, and with 401 when the stored value is
nonempty and differs from the digest; the store is unchanged in all cases. -/
theorem login_behavior (users : PyDict) (email pw : String) :
    ((login users email pw).1 = Except.ok ⟨true, "Login successful."⟩ ↔
      dictGet users email = some (hash_password pw))
    ∧ ((dictGet users email = none ∨ dictGet users email = some "") →
      (login users email pw).1 = Except.error ⟨404, "User not found."⟩)
    ∧ (∀ s, dictGet users email = some s → s ≠ "" → s ≠ hash_password pw →
      (login users email pw).1 = Except.error ⟨401, "Invalid credentials."⟩)
    ∧ (login users email pw).2 = users := by
  cases hget : dictGet users email with
  | none =>
    simp [login, hget, pyFalsy]
  | some s =>
    by_cases hs : s = ""
    · subst hs
      simp [login, hget, pyFalsy]
      intro h
      exact absurd h.symm (hash_password_ne_empty pw)
    · by_cases hp : s = hash_password pw
      · subst hp
        simp [login, hget, pyFalsy, hs, hash_password_ne_empty pw]
      · simp [login, hget, pyFalsy, hs, hp]

/-- C4 amended witness: a present, nonempty stored value that is not the
digest of the supplied password yields 401. -/
theorem login_behavior_witness :
    (login [("a@b.c", "deadbeef")] "a@b.c" "pw").1
      = Except.error ⟨401, "Invalid credentials."⟩ :=
  (login_behavior [("a@b.c", "deadbeef")] "a@b.c" "pw").2.2.1 "deadbeef"
    (by decide) (by decide) (by decide)

/-- C1 counterexample: appending a payment event through append_finance when
an entry with the same transaction id is already present does not leave the
ledger unchanged; the duplicate is appended anyway, so redelivery duplicates
the event. -/
theorem append_finance_duplicate_changes_ledger :
    (∃ x ∈ safe_load_json (FileContent.stored
        [(⟨some "tx1", some "a@b.c", some 10, "stripe", "t0"⟩ : FEntry)]), x.id = some "tx1")
    ∧ append_finance noWF
        (FileContent.stored [⟨some "tx1", some "a@b.c", some 10, "stripe", "t0"⟩])
        "stripe" (some "a@b.c") 10 (some "tx1") "t1"
      ≠ Except.ok (FileContent.stored
          [⟨some "tx1", some "a@b.c", some 10, "stripe", "t0"⟩]) := by
  constructor
  · exact ⟨⟨some "tx1", some "a@b.c", some 10, "stripe", "t0"⟩, by decide, rfl⟩
  · decide

/-- C1 amended: append_finance performs no transaction-id check at all. It
always appends the new entry (the stored ledger becomes the previous entries
plus the new one, capped to the last 100), so while the loaded ledger is
below the cap every call grows it by one entry even when an entry with the
same transaction id is already present; redelivering the same event twice
therefore yields a different ledger than delivering it once. -/
theorem append_finance_always_appends (fl : FileContent FEntry) (source : String)
    (email : Option String) (amount : ℚ) (txid : Option String) (now : String) :
    append_finance noWF fl source email amount txid now
      = Except.ok (FileContent.stored (takeLast 100
          (safe_load_json fl ++ [⟨txid, email, some amount, source, now⟩])))
    ∧ ((safe_load_json fl).length < 100 →
      (takeLast 100 (safe_load_json fl ++ [⟨txid, email, some amount, source, now⟩])).length
        = (safe_load_json fl).length + 1) := by
  refine ⟨append_finance_eq fl source email amount txid now, ?_⟩
  intro h
  simp [takeLast, List.length_drop, List.length_append]
  omega

/-- C1 amended witness: a ledger holding the entry for transaction tx1 grows
to two entries when the same transaction is delivered again. -/
theorem append_finance_always_appends_witness :
    append_finance noWF
        (FileContent.stored [(⟨some "tx1", some "a@b.c", some 10, "stripe", "t0"⟩ : FEntry)])
        "stripe" (some "a@b.c") 10 (some "tx1") "t1"
      = Except.ok (FileContent.stored
          [⟨some "tx1", some "a@b.c", some 10, "stripe", "t0"⟩,
           ⟨some "tx1", some "a@b.c", some 10, "stripe", "t1"⟩])
    ∧ (takeLast 100 (safe_load_json (FileContent.stored
          [(⟨some "tx1", some "a@b.c", some 10, "stripe", "t0"⟩ : FEntry)])
        ++ [⟨some "tx1", some "a@b.c", some 10, "stripe", "t1"⟩])).length = 2 := by
  constructor
  · rw [(append_finance_always_appends
      (FileContent.stored [⟨some "tx1", some "a@b.c", some 10, "stripe", "t0"⟩])
      "stripe" (some "a@b.c") 10 (some "tx1") "t1").1]
    decide
  · have h := (append_finance_always_appends
      (FileContent.stored [⟨some "tx1", some "a@b.c", some 10, "stripe", "t0"⟩])
      "stripe" (some "a@b.c") 10 (some "tx1") "t1").2 (by decide)
    rw [h]
    decide

/-- C2 counterexample: a Coinbase webhook request mutates the logs although
the Coinbase handler contains no signature verification step whatsoever (its
model takes no signature or secret input because the source never reads
one): delivering a charge:confirmed body changes both log files. -/
theorem coinbase_mutates_without_verification :
    (coinbase_webhook (some ⟨some "charge:confirmed", ⟨some "ch1", some "a@b.c", some 59⟩⟩)
        noWF noWF "t0" ⟨FileContent.stored [], FileContent.stored []⟩).2
      ≠ ⟨FileContent.stored [], FileContent.stored []⟩ := by
  decide

/-- C2 amended: the Stripe handler mutates no log unless construct_event
returned a verified event (an unconfigured secret and every verification
failure leave the files untouched), while the Coinbase handler performs no
signature verification and writes to webhook_log for every well-formed body
regardless of which secrets are configured. -/
theorem webhook_verification_behavior (construct : StripeConstructResult)
    (wf ff : WriteFaults) (now : String) (fs : LogFiles) (b : CoinbaseBody) :
    ((∀ ev, construct ≠ StripeConstructResult.ok ev) →
      (stripe_webhook true construct wf ff now fs).2 = fs)
    ∧ (stripe_webhook false construct wf ff now fs).2 = fs
    ∧ (∀ wl, append_log wf fs.webhook "coinbase" (.coinbase b.data) now = Except.ok wl →
      (coinbase_webhook (some b) wf ff now fs).2.webhook = wl)
    ∧ (coinbase_webhook (some b) noWF noWF now fs).2.webhook
        = FileContent.stored (takeLast 100
            (safe_load_json fs.webhook ++ [⟨"coinbase", now, .coinbase b.data⟩])) := by
  refine ⟨?_, by simp [stripe_webhook], ?_, ?_⟩
  · intro h
    cases construct with
    | ok ev => exact absurd rfl (h ev)
    | sigError => rfl
    | otherError msg => rfl
  · intro wl hwl
    cases hty : (b.event_type.getD "unknown" == "charge:confirmed") <;>
      cases hfin : append_finance ff fs.finance "coinbase" b.data.metadata_email
          (b.data.pricing_local_amount.getD 0) b.data.id now <;>
        simp [coinbase_webhook, hwl, hty, hfin]
  · cases hty : (b.event_type.getD "unknown" == "charge:confirmed") <;>
      simp [coinbase_webhook, append_log_eq, append_finance_eq, hty]

/-- C2 amended witness: a Stripe request whose signature fails verification
leaves the log files untouched. -/
theorem webhook_verification_behavior_witness :
    (stripe_webhook true StripeConstructResult.sigError noWF noWF "t0"
      ⟨FileContent.stored [], FileContent.stored []⟩).2
      = ⟨FileContent.stored [], FileContent.stored []⟩ :=
  (webhook_verification_behavior StripeConstructResult.sigError noWF noWF "t0"
    ⟨FileContent.stored [], FileContent.stored []⟩ ⟨none, ⟨none, none, none⟩⟩).1
    (fun _ h => nomatch h)

/-- C6: on a verified Stripe event the handler appends exactly one entry
(source "stripe", the event's data object, the timestamp) to webhook_log,
and for checkout.session.completed exactly one finance_log entry whose id is
the session id, whose amount is amount_total / 100 and whose source is
"stripe" (and no finance entry otherwise); a Coinbase charge:confirmed event
likewise appends one webhook_log entry and one finance_log entry whose
amount is the local pricing amount and whose source is "coinbase". Appends
are modulo the 100-entry cap of safe_write_json (claim C3). -/
theorem webhook_appends (ev : StripeEvent) (now : String) (fs : LogFiles) (b : CoinbaseBody) :
    ((stripe_webhook true (.ok ev) noWF noWF now fs).2.webhook
      = FileContent.stored (takeLast 100
          (safe_load_json fs.webhook ++ [⟨"stripe", now, .stripe ev.data⟩])))
    ∧ (ev.type = some "checkout.session.completed" →
      (stripe_webhook true (.ok ev) noWF noWF now fs).2.finance
        = FileContent.stored (takeLast 100 (safe_load_json fs.finance ++
            [⟨ev.data.id, ev.data.customer_email,
              some (ev.data.amount_total.getD 0 / 100), "stripe", now⟩])))
    ∧ (ev.type ≠ some "checkout.session.completed" →
      (stripe_webhook true (.ok ev) noWF noWF now fs).2.finance = fs.finance)
    ∧ ((coinbase_webhook (some b) noWF noWF now fs).2.webhook
      = FileContent.stored (takeLast 100
          (safe_load_json fs.webhook ++ [⟨"coinbase", now, .coinbase b.data⟩])))
    ∧ (b.event_type.getD "unknown" = "charge:confirmed" →
      (coinbase_webhook (some b) noWF noWF now fs).2.finance
        = FileContent.stored (takeLast 100 (safe_load_json fs.finance ++
            [⟨b.data.id, b.data.metadata_email,
              some (b.data.pricing_local_amount.getD 0), "coinbase", now⟩]))) := by
  refine ⟨?_, ?_, ?_, ?_, ?_⟩
  · cases hty : (ev.type == some "checkout.session.completed") <;>
      simp [stripe_webhook, hty, append_log_eq, append_finance_eq]
  · intro h
    simp [stripe_webhook, h, append_log_eq, append_finance_eq]
  · intro h
    have hty : (ev.type == some "checkout.session.completed") = false := by
      simpa using h
    simp [stripe_webhook, hty, append_log_eq]
  · cases hty : (b.event_type.getD "unknown" == "charge:confirmed") <;>
      simp [coinbase_webhook, hty, append_log_eq, append_finance_eq]
  · intro h
    simp [coinbase_webhook, h, append_log_eq, append_finance_eq]

/-- C6 witness: a completed Stripe checkout session for 5900 cents lands in
the finance log as one entry of amount 59. -/
theorem webhook_appends_witness :
    (stripe_webhook true
      (StripeConstructResult.ok
        ⟨some "checkout.session.completed", ⟨some "cs1", some "a@b.c", some 5900⟩⟩)
      noWF noWF "t0" ⟨FileContent.stored [], FileContent.stored []⟩).2.finance
      = FileContent.stored [⟨some "cs1", some "a@b.c", some 59, "stripe", "t0"⟩] := by
  rw [(webhook_appends
    ⟨some "checkout.session.completed", ⟨some "cs1", some "a@b.c", some 5900⟩⟩
    "t0" ⟨FileContent.stored [], FileContent.stored []⟩ ⟨none, ⟨none, none, none⟩⟩).2.1 rfl]
  simp [takeLast, safe_load_json, json_load]
  norm_num

theorem ratFloor_intCast (m : ℤ) : ratFloor (m : ℚ) = m := by
  simp only [ratFloor, Rat.num_intCast, Rat.den_intCast]
  rw [Int.natCast_one, Int.fdiv_eq_ediv _ (by norm_num)]
  exact Int.ediv_one m

theorem roundHalfEven_intCast (m : ℤ) : roundHalfEven (m : ℚ) = m := by
  simp only [roundHalfEven, ratFloor_intCast]
  norm_num

theorem pyRound2_intCast (m : ℤ) : pyRound2 (m : ℚ) = m := by
  have h : ((m : ℚ) * 100) = ((m * 100 : ℤ) : ℚ) := by push_cast; ring
  simp only [pyRound2, h, roundHalfEven_intCast]
  push_cast
  field_simp

theorem pyRound2_budget150 : pyRound2 (100 * (3 / 2) : ℚ) = 100 * (3 / 2) := by
  have h : (100 * (3 / 2) : ℚ) = ((150 : ℤ) : ℚ) := by norm_num
  rw [h, pyRound2_intCast]

theorem pyRound2_budget120 : pyRound2 (100 * (6 / 5) : ℚ) = 100 * (6 / 5) := by
  have h : (100 * (6 / 5) : ℚ) = ((120 : ℤ) : ℚ) := by norm_num
  rw [h, pyRound2_intCast]

theorem pyRound2_budget80 : pyRound2 (100 * (4 / 5) : ℚ) = 100 * (4 / 5) := by
  have h : (100 * (4 / 5) : ℚ) = ((80 : ℤ) : ℚ) := by norm_num
  rw [h, pyRound2_intCast]

/-- C7: run_forecast is summation and ratio only. total_revenue is the sum
of the amount fields of the loaded finance log (0 for a missing field),
ads_spent is the fixed 100, roi is total_revenue / ads_spent rounded to two
decimal places (Python banker's rounding), and next_budget is ads_spent
times 1.5, 1.2 or 0.8 according to whether roi exceeds 1.5, exceeds 1.0 but
not 1.5, or neither; the written record holds exactly these values. -/
theorem run_forecast_behavior (fin : FileContent FEntry) (now : String) (conf : ℕ) :
    (run_forecast fin now conf).timestamp = now
    ∧ (run_forecast fin now conf).total_revenue
        = ((safe_load_json fin).map (fun x => x.amount.getD 0)).sum
    ∧ (run_forecast fin now conf).ads_spent = 100
    ∧ (run_forecast fin now conf).roi
        = pyRound2 (((safe_load_json fin).map (fun x => x.amount.getD 0)).sum / 100)
    ∧ (run_forecast fin now conf).confidence = conf
    ∧ ((run_forecast fin now conf).roi > 3 / 2 →
        (run_forecast fin now conf).next_budget = 100 * (3 / 2))
    ∧ ((run_forecast fin now conf).roi > 1 ∧ ¬(run_forecast fin now conf).roi > 3 / 2 →
        (run_forecast fin now conf).next_budget = 100 * (6 / 5))
    ∧ (¬(run_forecast fin now conf).roi > 1 →
        (run_forecast fin now conf).next_budget = 100 * (4 / 5)) := by
  have hroi : (run_forecast fin now conf).roi
      = pyRound2 (((safe_load_json fin).map (fun x => x.amount.getD 0)).sum / 100) := by
    norm_num [run_forecast]
  have hnb : (run_forecast fin now conf).next_budget
      = pyRound2 (if (run_forecast fin now conf).roi > 3 / 2 then 100 * (3 / 2)
          else if (run_forecast fin now conf).roi > 1 then 100 * (6 / 5) else 100 * (4 / 5)) := by
    rw [hroi]
    norm_num [run_forecast]
  refine ⟨rfl, rfl, rfl, hroi, rfl, ?_, ?_, ?_⟩
  · intro h
    rw [hnb, if_pos h]
    exact pyRound2_budget150
  · rintro ⟨h1, h2⟩
    rw [hnb, if_neg h2, if_pos h1]
    exact pyRound2_budget120
  · intro h1
    have h2 : ¬(run_forecast fin now conf).roi > 3 / 2 :=
      fun hgt => h1 (lt_trans (by norm_num) hgt)
    rw [hnb, if_neg h2, if_neg h1]
    exact pyRound2_budget80

/-- C7 witness: on an empty finance log the revenue is 0, the ROI is 0, and
the next budget is the scaled-down 80. -/
theorem run_forecast_behavior_witness :
    (run_forecast (FileContent.stored []) "t0" 90).next_budget = 100 * (4 / 5) := by
  apply (run_forecast_behavior (FileContent.stored []) "t0" 90).2.2.2.2.2.2.2
  have hz : (run_forecast (FileContent.stored []) "t0" 90).roi = 0 := by
    have h := (run_forecast_behavior (FileContent.stored []) "t0" 90).2.2.2.1
    rw [h]
    show pyRound2 ((([] : List FEntry).map (fun x => x.amount.getD 0)).sum / 100) = 0
    rw [show ((([] : List FEntry).map (fun x => x.amount.getD 0)).sum / 100 : ℚ) = ((0 : ℤ) : ℚ) by norm_num]
    rw [pyRound2_intCast]
    norm_num
  rw [hz]
  norm_num

/-- C9: a request to create_stripe_checkout with the Stripe key configured
whose body lacks an email answers 500, not 400: the HTTPException(400) is
raised inside the try block and converted by the blanket except-handler into
a 500 "Internal error"; the same conversion applies to an invalid plan. -/
theorem stripe_checkout_http400_becomes_500 (b : CheckoutBody) (sc : Except String String) :
    (b.email = none →
      create_stripe_checkout true (Except.ok b) sc
        = Except.error ⟨500, "Internal error: " ++ pyStr (PyExc.http 400 "Email is required")⟩)
    ∧ (pyFalsy b.email = false → plan_price_id (b.plan.getD "monthly") = none →
      create_stripe_checkout true (Except.ok b) sc
        = Except.error ⟨500, "Internal error: " ++ pyStr (PyExc.http 400 "Invalid plan type")⟩) := by
  constructor
  · intro h
    simp [create_stripe_checkout, stripe_checkout_try, h, pyFalsy]
  · intro h1 h2
    simp [create_stripe_checkout, stripe_checkout_try, h1, h2]

/-- C9 witness: a body without an email yields the 500 Internal error. -/
theorem stripe_checkout_http400_becomes_500_witness :
    create_stripe_checkout true (Except.ok ⟨none, none⟩) (Except.ok "url")
      = Except.error ⟨500, "Internal error: " ++ pyStr (PyExc.http 400 "Email is required")⟩ :=
  (stripe_checkout_http400_becomes_500 ⟨none, none⟩ (Except.ok "url")).1 rfl

/-- C10: the env_keys list of the debug endpoint is exactly the environment
names that do not contain "key", "secret" or "token" as a case-insensitive
substring: the code's filter coincides with the claim's predicate on every
environment. -/
theorem debug_env_keys_exactly_nonsensitive (env : List String) :
    debug_env_keys env = debug_env_keys_spec env := by
  unfold debug_env_keys debug_env_keys_spec
  apply List.filter_congr
  intro k _
  simp only [sensitive_markers, sensitiveCI, List.any_cons, List.any_nil, Bool.or_false]
  rw [show lowerChars "key" = ['k', 'e', 'y'] from by decide,
      show lowerChars "secret" = ['s', 'e', 'c', 'r', 'e', 't'] from by decide,
      show lowerChars "token" = ['t', 'o', 'k', 'e', 'n'] from by decide]
  simp [Bool.or_assoc]

end BW
